import Mathlib

/-!
Verification of the supabase-security-audit tool against its specification.

This file gives a shallow embedding of the JavaScript modules
`SupabaseDetector` (src/unnamed/part_000), `SupabaseClient` and `Analyzer`
(src/unnamed/part_002), and the row-count refinement step of `App.runAudit`
(src/js/app.js).  Network interactions are modelled by passing the observed
response data explicitly; a `fetch` (or other) call that throws is modelled
by `none` / `Except.error`.  JSON/JS values are modelled by the inductive
type `Js`; JavaScript `null` and `undefined` are merged into `Js.null`
(the embedded code never distinguishes them).  A JavaScript `TypeError`
(property access on null/undefined, calling a missing method, iterating a
non-iterable) is modelled by `Except.error ()`.
-/

/-- A JSON-like JavaScript value.  `null` models both JS `null` and
`undefined` (the embedded functions never distinguish them). -/
inductive Js where
  | null : Js
  | bool (b : Bool) : Js
  | num (n : Int) : Js
  | str (s : String) : Js
  | arr (elems : List Js) : Js
  | obj (fields : List (String × Js)) : Js

/-- JavaScript truthiness of a value (NaN is not modelled; numbers are `Int`). -/
def Js.truthy : Js → Bool
  | .null => false
  | .bool b => b
  | .num n => n != 0
  | .str s => s != ""
  | .arr _ => true
  | .obj _ => true

/-- Property access `v.k` on a receiver already known to be non-null:
objects look the key up, all other values yield `undefined` (here `.null`).
String/array index and length properties are not modelled (the embedded
code never reads them via `getF`). -/
def Js.getF : Js → String → Js
  | .obj fields, k => ((fields.find? (fun p => p.1 == k)).map (fun p => p.2)).getD .null
  | _, _ => .null

/-- Property access `v.k` where `v` may be null/undefined: a JS `TypeError`. -/
def Js.getE : Js → String → Except Unit Js
  | .null, _ => .error ()
  | v, k => .ok (v.getF k)

/-- Optional-chain access `v?.k`. -/
def Js.getOpt : Js → String → Js
  | .null, _ => .null
  | v, k => v.getF k

/-- JavaScript `a || b` (value-returning or). -/
def jsOr (a b : Js) : Js := if a.truthy then a else b

/-- JavaScript strict equality of a value with a string literal. -/
def jsEqStr : Js → String → Bool
  | .str s, t => s == t
  | _, _ => false

/-- `Object.entries(v)`: throws on null/undefined, lists fields of objects,
index/element pairs of arrays, index/character pairs of strings, and is empty
on other primitives. -/
def jsEntries : Js → Except Unit (List (String × Js))
  | .null => .error ()
  | .obj fields => .ok fields
  | .arr xs => .ok ((xs.enum).map (fun p => (toString p.1, p.2)))
  | .str s => .ok ((s.toList.enum).map (fun p => (toString p.1, Js.str (String.mk [p.2]))))
  | _ => .ok []

/-- `for (x of v)`: arrays iterate elements, strings iterate characters,
anything else raises a `TypeError` (objects and primitives are not iterable). -/
def jsIter : Js → Except Unit (List Js)
  | .arr xs => .ok xs
  | .str s => .ok (s.toList.map (fun c => Js.str (String.mk [c])))
  | _ => .error ()

/-- `pat` is a prefix of some suffix of `s`, i.e. an infix. -/
def substrTail (pat : List Char) : List Char → Bool
  | [] => pat.isEmpty
  | c :: rest => List.isPrefixOf pat (c :: rest) || substrTail pat rest

/-- `pat` occurs as a substring of `s` (JS `String.prototype.includes`). -/
def substrB (pat s : String) : Bool := substrTail pat.toList s.toList

/-- `s.startsWith(p)`. -/
def startsWithS (s p : String) : Bool := List.isPrefixOf p.toList s.toList

/-- `s.endsWith(p)`. -/
def endsWithS (s p : String) : Bool := List.isPrefixOf p.toList.reverse s.toList.reverse

/-- ASCII upper-casing of one character (the embedded code only upper-cases
HTTP verb and header strings). -/
def charUp (c : Char) : Char :=
  if 97 ≤ c.toNat && c.toNat ≤ 122 then Char.ofNat (c.toNat - 32) else c

/-- `s.toUpperCase()` (ASCII range). -/
def strToUpper (s : String) : String := String.mk (s.toList.map charUp)

/-- ASCII lower-casing of one character. -/
def charDown (c : Char) : Char :=
  if 65 ≤ c.toNat && c.toNat ≤ 90 then Char.ofNat (c.toNat + 32) else c

/-- `s.toLowerCase()` (ASCII range; the case-insensitive regex tests of the
source compare ASCII identifiers). -/
def strToLower (s : String) : String := String.mk (s.toList.map charDown)

/-- `parseInt` on a nonempty all-digit string. -/
def digitsToNat (cs : List Char) : Nat :=
  cs.foldl (fun acc c => acc * 10 + (c.toNat - 48)) 0

/-- Split a character list at every occurrence of `sep`
(`String.prototype.split`-style, keeping empty segments). -/
def splitCh (sep : Char) : List Char → List (List Char)
  | [] => [[]]
  | c :: rest =>
      let r := splitCh sep rest
      if c == sep then [] :: r
      else
        match r with
        | h :: t => (c :: h) :: t
        | [] => [[c]]

/-- Stringification used by template literals, e.g. ``${itemType}[]``.
Arrays join their stringified elements with commas; plain objects print
as `[object Object]`. -/
def jsToString : Js → String
  | .null => "null"
  | .bool b => if b then "true" else "false"
  | .num n => toString n
  | .str s => s
  | .arr xs => String.intercalate "," (xs.map (fun x => jsToStringFlat x))
  | .obj _ => "[object Object]"
where
  /-- One-level stringification of array elements (nested arrays flatten in
  JS; one level suffices for every value the embedded code stringifies). -/
  jsToStringFlat : Js → String
  | .null => ""
  | .bool b => if b then "true" else "false"
  | .num n => toString n
  | .str s => s
  | .arr _ => ""
  | .obj _ => "[object Object]"

/-- The tri-state values the source stores in permission fields:
JS `true` ↦ `isTrue`, JS `false` ↦ `isFalse`, JS `'unknown'` ↦ `unknown`. -/
inductive Tri where
  | isTrue : Tri
  | isFalse : Tri
  | unknown : Tri
deriving DecidableEq, Repr

/-- Issue severities produced by the analyzer. -/
inductive Sev where
  | critical : Sev
  | high : Sev
  | medium : Sev
  | low : Sev
deriving DecidableEq, Repr

/-- A sensitive-column record pushed by `Analyzer.detectSensitiveColumns`:
`{ column, pattern: pattern.toString(), type: col.type }`. -/
structure SensitiveCol where
  column : String
  pattern : String
  type : Js

/-- A security issue.  The JS objects carry their subject under a key named
`table`, `function` or `bucket` depending on the producer; the spec's data
model calls this the subject, so the embedding uses a single `subject`
field.  `details` is populated only by the sensitive-columns issue. -/
structure Issue where
  severity : Sev
  type : String
  subject : Option String := none
  message : String := ""
  recommendation : Option String := none
  details : List SensitiveCol := []

/-- Per-severity issue counts (`breakdown` in `calculateRiskScore`). -/
structure Breakdown where
  critical : Nat
  high : Nat
  medium : Nat
  low : Nat
deriving DecidableEq, Repr

/-- The value returned by `Analyzer.calculateRiskScore`. -/
structure RiskScore where
  score : Nat
  riskLevel : String
  breakdown : Breakdown
  totalIssues : Nat
deriving DecidableEq, Repr

/-- The severity weights of `Analyzer.calculateRiskScore`. -/
def sevWeight : Sev → Nat
  | .critical => 25
  | .high => 15
  | .medium => 8
  | .low => 3

/-- `breakdown[issue.severity]++`. -/
def bumpB (b : Breakdown) : Sev → Breakdown
  | .critical => { b with critical := b.critical + 1 }
  | .high => { b with high := b.high + 1 }
  | .medium => { b with medium := b.medium + 1 }
  | .low => { b with low := b.low + 1 }

/-- One iteration of the issue loop in `calculateRiskScore`: bump the
breakdown counter and add the severity weight to the running total. -/
def riskStep (p : Breakdown × Nat) (i : Issue) : Breakdown × Nat :=
  (bumpB p.1 i.severity, p.2 + sevWeight i.severity)

/-- `Analyzer.calculateRiskScore` (src/unnamed/part_002 lines 802-845):
weighted sum over issues capped at 100, severity breakdown, and a risk
level determined by severity presence with numeric fallbacks. -/
def calculateRiskScore (issues : List Issue) : RiskScore :=
  let acc := issues.foldl riskStep (⟨0, 0, 0, 0⟩, 0)
  let breakdown := acc.1
  let normalizedScore := min 100 acc.2
  let riskLevel :=
    if breakdown.critical > 0 ∨ normalizedScore ≥ 75 then "critical"
    else if breakdown.high > 0 ∨ normalizedScore ≥ 50 then "high"
    else if breakdown.medium > 0 ∨ normalizedScore ≥ 25 then "medium"
    else "low"
  { score := normalizedScore, riskLevel := riskLevel, breakdown := breakdown,
    totalIssues := issues.length }

/-- Specification-side count of issues with a given severity. -/
def countSev (issues : List Issue) (s : Sev) : Nat :=
  issues.countP (fun i => i.severity == s)

/-! ## SupabaseClient.testTableAccess (src/unnamed/part_002 lines 40-107) -/

/-- The response observed by the select probe (`GET {table}?limit=0` with a
`Range: 0-0` header).  `contentRange` is the `Content-Range` header,
`none` when absent (JS `headers.get` returns `null`). -/
structure SelectResp where
  ok : Bool
  status : Nat
  contentRange : Option String

/-- The response observed by the capability probe (`OPTIONS {table}`):
the `Allow` and `Access-Control-Allow-Methods` headers (`none` = absent). -/
structure OptionsResp where
  allow : Option String
  acam : Option String

/-- The per-table access result built by `testTableAccess`. -/
structure AccessResult where
  select : Bool
  insert : Tri
  update : Tri
  delete : Tri
  rowCount : Option Nat
  error : Option String

/-- `h.get('Allow') || h.get('Access-Control-Allow-Methods') || ''`:
both a missing header (`null`) and an empty-string header are falsy. -/
def headerOr (a b : Option String) : String :=
  let pick : Option String → String := fun o =>
    match o with
    | some s => s
    | none => ""
  if pick a != "" then pick a else pick b

/-- First match of the regex `\/(\d+|\*)` in a character list: at each `/`,
prefer a maximal nonempty digit run, else a literal `*`, else keep
scanning.  Returns the captured group. -/
def crMatchGroup : List Char → Option String
  | [] => none
  | '/' :: rest =>
      let ds := rest.takeWhile (fun c => c.isDigit)
      if ds.length > 0 then some (String.mk ds)
      else
        match rest with
        | '*' :: _ => some "*"
        | _ => crMatchGroup rest
  | _ :: rest => crMatchGroup rest

/-- Lines 71-77: read the row count from a `Content-Range` header; a `*`
total (or no match, or an absent/empty header) leaves it unset. -/
def parseContentRange (cr : Option String) : Option Nat :=
  match cr with
  | none => none
  | some s =>
      if s == "" then none
      else
        match crMatchGroup s.toList with
        | none => none
        | some g => if g == "*" then none else some (digitsToNat g.toList)

/-- `SupabaseClient.testTableAccess`, as a function of the two observed
responses.  `none` models the corresponding `fetch` throwing (network
error): the select catch leaves `select = false`, the OPTIONS catch leaves
the three write permissions `'unknown'` and records the error note. -/
def testTableAccess (selectResp : Option SelectResp) (optionsResp : Option OptionsResp) :
    AccessResult :=
  let base : AccessResult :=
    { select := false, insert := .unknown, update := .unknown, delete := .unknown,
      rowCount := none, error := none }
  let r1 :=
    match selectResp with
    | none => base
    | some sr =>
        { base with
          select := sr.ok || sr.status == 416,
          rowCount := parseContentRange sr.contentRange }
  match optionsResp with
  | none => { r1 with error := some "Could not determine write permissions (OPTIONS not supported)" }
  | some o =>
      let allowedMethods := strToUpper (headerOr o.allow o.acam)
      { r1 with
        insert := if substrB "POST" allowedMethods then .isTrue else .isFalse,
        update := if substrB "PATCH" allowedMethods then .isTrue else .isFalse,
        delete := if substrB "DELETE" allowedMethods then .isTrue else .isFalse }

/-- The per-table row-count refinement of `App.runAudit`
(src/js/app.js lines 213-228): only when the access probe reported
`select` does the audit call `fetchTableRowCount`; a `null` count leaves
the access result untouched, otherwise `access.rowCount` is overwritten. -/
def updateRowCount (access : AccessResult) (fetchedCount : Option Nat) : AccessResult :=
  if access.select then
    match fetchedCount with
    | some c => { access with rowCount := some c }
    | none => access
  else access

/-! ## SupabaseClient.testBucketAccess (src/unnamed/part_002 lines 274-319) -/

/-- The bucket access result.  `canUpload`/`canDelete` are initialised to
`'unknown'` and never written.  `fileCount` is `files.length` of the parsed
list body (`null` when listing failed or the body has no length). -/
structure BucketResult where
  canList : Bool
  canUpload : Tri
  canDelete : Tri
  isPublic : Bool
  fileCount : Js

/-- JS `.length` of a parsed JSON body (arrays and strings only). -/
def jsLengthProp : Js → Js
  | .arr xs => .num xs.length
  | .str s => .num s.length
  | _ => .null

/-- `SupabaseClient.testBucketAccess` as a function of the two observed
outcomes.  `listOutcome` is `(response.ok, parsed JSON body)` of the list
probe, `none` when the fetch (or JSON decode) threw.  `publicStatus` is the
HTTP status of the unauthenticated public-object probe, `none` when that
fetch threw.  (When the body is not an array, `files.length` is undefined;
the JS assignment then stores `undefined`, modelled by `.null` — a null
body would throw after `canList` was already set, with the same observable
result.) -/
def testBucketAccess (listOutcome : Option (Bool × Js)) (publicStatus : Option Nat) :
    BucketResult :=
  let base : BucketResult :=
    { canList := false, canUpload := .unknown, canDelete := .unknown,
      isPublic := false, fileCount := .null }
  let r1 :=
    match listOutcome with
    | none => base
    | some (ok, body) =>
        if ok then { base with canList := true, fileCount := jsLengthProp body } else base
  match publicStatus with
  | none => r1
  | some s => { r1 with isPublic := !(s == 400) && !(s == 404) }

/-! ## Analyzer.detectSensitiveColumns / analyzeTableSecurity
(src/unnamed/part_002 lines 402-424, 648-732) -/

/-- A column of a parsed table.  `name` is always a string by construction
in `parseOpenAPISpec`; the remaining fields hold whatever JS value the spec
document supplied.  `primaryKey` is only written by the definitions branch
(query-parameter columns leave it absent/undefined, modelled `false`). -/
structure Column where
  name : String
  type : Js
  format : Js
  description : Js
  primaryKey : Bool

/-- One entry of `table.operations`. -/
structure Operation where
  method : String
  description : Js

/-- A table extracted by `parseOpenAPISpec` (`description` is always `''`). -/
structure TableSchema where
  name : String
  columns : List Column
  operations : List Operation
  description : String

/-- A sensitive-name regex of `Analyzer.SENSITIVE_PATTERNS`: either a plain
case-insensitive literal `/s/i` or a two-part literal with an optional
underscore `/a_?b/i`. -/
inductive SPat where
  | lit (s : String) : SPat
  | optU (a b : String) : SPat

/-- `pattern.test(name)` for a sensitive-name pattern (case-insensitive). -/
def spatMatch (p : SPat) (name : String) : Bool :=
  let n := strToLower name
  match p with
  | .lit s => substrB s n
  | .optU a b => substrB (a ++ b) n || substrB (a ++ "_" ++ b) n

/-- `pattern.toString()` for a sensitive-name pattern. -/
def spatStr : SPat → String
  | .lit s => "/" ++ s ++ "/i"
  | .optU a b => "/" ++ a ++ "_?" ++ b ++ "/i"

/-- `Analyzer.SENSITIVE_PATTERNS`, in source order. -/
def SENSITIVE_PATTERNS : List SPat :=
  [.lit "password", .lit "passwd", .lit "secret", .lit "token",
   .optU "api" "key", .lit "apikey", .optU "private" "key", .optU "access" "key",
   .optU "auth" "key", .lit "ssn", .optU "social" "security", .optU "credit" "card",
   .optU "card" "number", .lit "cvv", .lit "cvc", .lit "pin",
   .optU "encryption" "key", .lit "salt", .lit "hash", .lit "credential"]

/-- `Analyzer.detectSensitiveColumns`: for each column record the first
matching pattern (the inner loop breaks on the first hit). -/
def detectSensitiveColumns (columns : List Column) : List SensitiveCol :=
  columns.foldl
    (fun acc col =>
      match SENSITIVE_PATTERNS.find? (fun p => spatMatch p col.name) with
      | some p => acc ++ [{ column := col.name, pattern := spatStr p, type := col.type }]
      | none => acc)
    []

/-- `n.toLocaleString()` under the en-US default: decimal digits grouped in
threes by commas. -/
def groupRev : List Char → Nat → List Char
  | [], _ => []
  | c :: rest, k =>
      if k ≠ 0 && k % 3 == 0 then ',' :: c :: groupRev rest (k + 1)
      else c :: groupRev rest (k + 1)

/-- `Number.prototype.toLocaleString` for a natural number (en-US). -/
def toLocaleStr (n : Nat) : String :=
  String.mk ((groupRev (toString n).toList.reverse 0).reverse)

/-- The `unrestricted_insert` issue pushed for a table (lines 690-698). -/
def insertIssue (tname : String) : Issue :=
  { severity := .high, type := "unrestricted_insert", subject := some tname,
    message := "Table \"" ++ tname ++ "\" allows INSERT operations with anon key",
    recommendation := some "Consider adding RLS policies to restrict INSERT access" }

/-- The `unrestricted_update` issue pushed for a table (lines 700-708). -/
def updateIssue (tname : String) : Issue :=
  { severity := .high, type := "unrestricted_update", subject := some tname,
    message := "Table \"" ++ tname ++ "\" allows UPDATE operations with anon key",
    recommendation := some "Consider adding RLS policies to restrict UPDATE access" }

/-- The `unrestricted_delete` issue pushed for a table (lines 710-718). -/
def deleteIssue (tname : String) : Issue :=
  { severity := .critical, type := "unrestricted_delete", subject := some tname,
    message := "Table \"" ++ tname ++ "\" allows DELETE operations with anon key",
    recommendation := some "Strongly consider adding RLS policies to restrict DELETE access" }

/-- The `sensitive_columns` issue pushed for a table (lines 678-685). -/
def sensitiveColumnsIssue (tname : String) (sens : List SensitiveCol) : Issue :=
  { severity := .medium, type := "sensitive_columns", subject := some tname,
    message := "Table \"" ++ tname ++ "\" exposes potentially sensitive columns: " ++
      String.intercalate ", " (sens.map (fun c => c.column)),
    details := sens }

/-- The `large_exposure` issue pushed for a table (lines 721-729). -/
def largeExposureIssue (tname : String) (rowCount : Nat) : Issue :=
  { severity := .low, type := "large_exposure", subject := some tname,
    message := "Table \"" ++ tname ++ "\" exposes " ++ toLocaleStr rowCount ++
      " rows to anon users",
    recommendation := some "Consider if all this data needs to be publicly accessible" }

/-- `Analyzer.analyzeTableSecurity`.  The access argument is optional
because `generateReport` passes `tableAccessResults.get(name)`, which may
be `undefined`.  With an absent access result the guard
`accessResults?.rowCount !== null` evaluates to `true` (`undefined !== null`)
and the follow-up `accessResults.rowCount` raises a `TypeError`, modelled
by `Except.error ()`; the first four checks are `?.`-guarded and safe. -/
def analyzeTableSecurity (table : TableSchema) (accessResults : Option AccessResult) :
    Except Unit (List Issue) :=
  let sens := detectSensitiveColumns table.columns
  let triHit : (AccessResult → Tri) → Bool := fun f =>
    match accessResults with
    | some a => f a == Tri.isTrue
    | none => false
  let issues := if sens.length > 0 then [sensitiveColumnsIssue table.name sens] else []
  let issues := issues ++
    (if triHit (fun a => a.insert) then [insertIssue table.name] else [])
  let issues := issues ++
    (if triHit (fun a => a.update) then [updateIssue table.name] else [])
  let issues := issues ++
    (if triHit (fun a => a.delete) then [deleteIssue table.name] else [])
  match accessResults with
  | none => .error ()
  | some a =>
      let issues := issues ++
        (if (match a.rowCount with | some c => decide (c > 10000) | none => false : Bool)
          then [largeExposureIssue table.name (a.rowCount.getD 0)] else [])
      .ok issues

/-! ## SupabaseClient.testRPCFunction / Analyzer.analyzeFunctionSecurity
(src/unnamed/part_002 lines 161-205, 740-763) -/

/-- A parameter of a parsed RPC function. -/
structure FuncParam where
  name : String
  type : Js
  format : Js
  required : Bool
  description : Js

/-- An RPC function extracted by `parseOpenAPISpec`.  `returnType` is a JS
value: the source assigns either a string or the raw `responseSchema.type`. -/
structure RpcFunction where
  name : String
  description : Js
  parameters : List FuncParam
  returnType : Js

/-- The value built by `testRPCFunction`. -/
structure FuncTestResult where
  accessible : Bool
  requiresAuth : Tri
  error : Option String
  testResponse : Option Nat

/-- `SupabaseClient.testRPCFunction` as a function of the probe outcome:
`Except.error msg` models the `fetch` throwing with message `msg`,
`Except.ok s` a response with HTTP status `s`.  401/403 mark auth required,
404 marks the function inaccessible with unknown auth, anything else
(200, 400, 422, ...) marks it publicly reachable. -/
def testRPCFunction (outcome : Except String Nat) : FuncTestResult :=
  match outcome with
  | .error msg =>
      { accessible := true, requiresAuth := .unknown, error := some msg, testResponse := none }
  | .ok s =>
      if s == 401 || s == 403 then
        { accessible := true, requiresAuth := .isTrue, error := none, testResponse := some s }
      else if s == 404 then
        { accessible := false, requiresAuth := .unknown, error := none, testResponse := some s }
      else
        { accessible := true, requiresAuth := .isFalse, error := none, testResponse := some s }

/-- The verb patterns of `analyzeFunctionSecurity` (`sensitiveOps`), each a
case-insensitive substring test. -/
def sensitiveOps : List String :=
  ["delete", "drop", "truncate", "admin", "update", "insert", "create"]

/-- The `sensitive_function` issue (lines 750-756). -/
def sensitiveFunctionIssue (fname : String) : Issue :=
  { severity := .medium, type := "sensitive_function", subject := some fname,
    message := "RPC function \"" ++ fname ++
      "\" appears to perform sensitive operations and is exposed in the API",
    recommendation := some "Verify this function has proper authentication checks" }

/-- `Analyzer.analyzeFunctionSecurity`: the only gate is
`testResults?.accessible`; the first matching verb pattern pushes one
medium issue and breaks. -/
def analyzeFunctionSecurity (func : RpcFunction) (testResults : Option FuncTestResult) :
    List Issue :=
  match testResults with
  | none => []
  | some tr =>
      if tr.accessible then
        match sensitiveOps.find? (fun p => substrB p (strToLower func.name)) with
        | some _ => [sensitiveFunctionIssue func.name]
        | none => []
      else []

/-! ## SupabaseDetector.detectFromUrl (src/unnamed/part_000 lines 18-86) -/

/-- The detector state after `analyzeContent` has run: the flags and
credentials accumulated on the `SupabaseDetector` instance fields. -/
structure DetectState where
  detected : Bool
  projectUrl : Option String
  anonKey : Option String
  detectionDetails : List String

/-- The value returned by `detectFromUrl` on success. -/
structure DetectResult where
  projectUrl : String
  anonKey : String
  details : List String

/-- JS truthiness of an optional string field (`null` and `''` are falsy). -/
def truthyOpt : Option String → Bool
  | none => false
  | some s => s != ""

/-- The no-detection error message (lines 55-60). -/
def noDetectMsg (st : DetectState) : String :=
  let detailsMsg :=
    if st.detectionDetails.length > 0 then
      " Detection details: " ++ String.intercalate ", " (st.detectionDetails.take 3)
    else ""
  "No Supabase usage detected on this page." ++ detailsMsg ++
    " The credentials may be in JavaScript bundles that require authentication to access, or the page may load them dynamically. Please try manual entry."

/-- The partial-extraction error message (lines 62-75). -/
def partialMsg (st : DetectState) : String :=
  let detectedMsg :=
    if st.detectionDetails.length > 0 then
      " Detected patterns: " ++ String.intercalate ", " (st.detectionDetails.take 5) ++ "."
    else ""
  let urlPart : List String :=
    match st.projectUrl with
    | some u => if u != "" then ["found project URL: " ++ u] else []
    | none => []
  let keyPart : List String := if truthyOpt st.anonKey then ["found anon key"] else []
  let partialInfo := urlPart ++ keyPart
  let partialNote :=
    if partialInfo.length > 0 then
      " Partially detected: " ++ String.intercalate " and " partialInfo ++ "."
    else ""
  "Supabase detected but could not extract both project URL and anon key." ++
    detectedMsg ++ partialNote ++
    " The credentials may be in minified JavaScript bundles or require authentication. Please enter them manually."

/-- The outcome logic of `SupabaseDetector.detectFromUrl` (lines 54-81),
as a function of the state left by `analyzeContent`: no detection throws,
a missing (or empty) project URL or anon key throws the partial-extraction
error, and only a complete pair is returned. -/
def detectFromUrlOutcome (st : DetectState) : Except String DetectResult :=
  if !st.detected then .error (noDetectMsg st)
  else if !(truthyOpt st.projectUrl && truthyOpt st.anonKey) then .error (partialMsg st)
  else
    .ok { projectUrl := st.projectUrl.getD "", anonKey := st.anonKey.getD "",
          details := st.detectionDetails }

/-- `Except.isOk` as a plain Bool (not present under this name in 4.14). -/
def exceptOk : Except String DetectResult → Bool
  | .ok _ => true
  | .error _ => false

/-! ## Analyzer.parseOpenAPISpec (src/unnamed/part_002 lines 498-641) -/

/-- The value returned by `parseOpenAPISpec`. -/
structure ParseResult where
  tables : List TableSchema
  functions : List RpcFunction
  rawSpec : Js

/-- `path.replace(/^\//, '').replace(/\/$/, '')`: strip one leading and one
trailing slash. -/
def stripSlashes (p : String) : String :=
  let p1 := if startsWithS p "/" then p.drop 1 else p
  if endsWithS p1 "/" then p1.dropRight 1 else p1

/-- The reserved query-parameter prefixes skipped when deriving columns. -/
def reservedParamName (n : String) : Bool :=
  startsWithS n "select" || startsWithS n "order" || startsWithS n "limit" ||
    startsWithS n "offset" || startsWithS n "on_conflict"

/-- `s.match(/\/([^/]+)$/)`: the nonempty final segment after the last
slash, if the string contains a slash and does not end in one. -/
def lastSegAfterSlash (s : String) : Option String :=
  let parts := splitCh '/' s.toList
  match parts with
  | [] => none
  | [_] => none
  | _ =>
      if (parts.getLastD []).isEmpty then none
      else some (String.mk (parts.getLastD []))

/-- `.match(...)` called on an arbitrary JS value: a `TypeError` unless the
receiver is a string (null throws on access, other primitives and objects
have no `match` method). -/
def jsMatchLastSegE : Js → Except Unit (Option String)
  | .str s => .ok (lastSegAfterSlash s)
  | _ => .error ()

/-- `required?.includes(name)` followed by `|| false`: null/undefined give
`false`, arrays test element membership against the string (strict
equality), strings test substring containment, and any other receiver
throws (`.includes` is not a function there). -/
def jsRequiredIncludes : Js → String → Except Unit Bool
  | .null, _ => .ok false
  | .arr xs, name => .ok (xs.any (fun x => jsEqStr x name))
  | .str s, name => .ok (substrB name s)
  | _, _ => .error ()

/-- Lines 541-556: fold one query parameter into the column list.  The
guard accesses `param.in` (throws on a null element), then requires a
truthy `param.name`; calling `.startsWith` on a truthy non-string name
throws.  Reserved names and duplicates are skipped. -/
def addQueryParamColumn (cols : List Column) (param : Js) : Except Unit (List Column) := do
  let pin ← param.getE "in"
  if !(jsEqStr pin "query") then return cols
  let pname := param.getF "name"
  if !pname.truthy then return cols
  match pname with
  | .str n =>
      if reservedParamName n then return cols
      if (cols.find? (fun c => c.name == n)).isSome then return cols
      let schema := param.getF "schema"
      let ty := jsOr (schema.getOpt "type") (jsOr (schema.getOpt "format") (.str "unknown"))
      let fmt := jsOr (schema.getOpt "format") Js.null
      let desc := jsOr (param.getF "description") (.str "")
      return cols ++ [{ name := n, type := ty, format := fmt, description := desc,
                        primaryKey := false }]
  | _ => .error ()

/-- Lines 530-558: process one `[method, details]` entry of a table path.
A matching CRUD verb records an operation (reading `details.description`,
which throws on a null details value); a truthy `details.parameters` is
then iterated for query-parameter columns. -/
def procMethodEntry (acc : List Operation × List Column) (method : String) (details : Js) :
    Except Unit (List Operation × List Column) := do
  let op := strToUpper method
  let ops ←
    if ["GET", "POST", "PATCH", "DELETE"].contains op then do
      let d1 ← details.getE "description"
      let desc := jsOr d1 (jsOr (details.getF "summary") (.str ""))
      pure (acc.1 ++ [{ method := op, description := desc }])
    else pure acc.1
  let params ← details.getE "parameters"
  if params.truthy then do
    let items ← jsIter params
    let cols ← items.foldlM addQueryParamColumn acc.2
    return (ops, cols)
  else
    return (ops, acc.2)

/-- Lines 560-574: merge columns from `spec.definitions[tableName]`,
skipping columns already found.  `colSchema.type` throws on a null column
schema; `required?.includes` may throw per `jsRequiredIncludes`. -/
def addDefColumns (spec : Js) (tableName : String) (cols : List Column) :
    Except Unit (List Column) := do
  let entry := ((spec.getF "definitions").getOpt tableName)
  if !entry.truthy then return cols
  let props := entry.getOpt "properties"
  if !props.truthy then return cols
  let pentries ← jsEntries props
  pentries.foldlM
    (fun cs pe => do
      let colName := pe.1
      let colSchema := pe.2
      if (cs.find? (fun c => c.name == colName)).isSome then return cs
      let ty0 ← colSchema.getE "type"
      let ty := jsOr ty0 (.str "unknown")
      let fmt := jsOr (colSchema.getF "format") Js.null
      let desc := jsOr (colSchema.getF "description") (.str "")
      let req ← jsRequiredIncludes (entry.getF "required") colName
      return cs ++ [{ name := colName, type := ty, format := fmt, description := desc,
                      primaryKey := req }])
    cols

/-- Lines 510-579: process one `[path, methods]` entry of the table loop.
RPC paths are skipped; empty or multi-segment names are skipped;
`Object.entries(methods)` throws on a null methods value; the table is
kept only when it has at least one recognised operation. -/
def procTablePath (spec : Js) (acc : List TableSchema) (path : String) (methods : Js) :
    Except Unit (List TableSchema) := do
  if startsWithS path "/rpc/" then return acc
  let tableName := stripSlashes path
  if tableName == "" || substrB "/" tableName then return acc
  let mentries ← jsEntries methods
  let oc ← mentries.foldlM (fun oc me => procMethodEntry oc me.1 me.2) (([], []) : List Operation × List Column)
  let cols ← addDefColumns spec tableName oc.2
  if oc.1.length > 0 then
    return acc ++ [{ name := tableName, columns := cols, operations := oc.1, description := "" }]
  else
    return acc

/-- Lines 601-616: fold one body parameter entry into the function
parameter list.  `param.in` throws on a null element; `paramSchema.type`
throws on a null parameter schema. -/
def addBodyParams (ps : List FuncParam) (param : Js) :
    Except Unit (List FuncParam) := do
  let pin ← param.getE "in"
  if !(jsEqStr pin "body") then return ps
  let schema := param.getF "schema"
  let props := schema.getOpt "properties"
  if !props.truthy then return ps
  let pentries ← jsEntries props
  pentries.foldlM
    (fun acc pe => do
      let paramName := pe.1
      let paramSchema := pe.2
      let ty0 ← paramSchema.getE "type"
      let ty := jsOr ty0 (jsOr (paramSchema.getF "format") (.str "any"))
      let fmt := jsOr (paramSchema.getF "format") Js.null
      let req ← jsRequiredIncludes (schema.getF "required") paramName
      let desc := jsOr (paramSchema.getF "description") (.str "")
      return acc ++ [{ name := paramName, type := ty, format := fmt, required := req,
                       description := desc }])
    ps

/-- Lines 618-635: resolve the return type from a truthy
`responses['200'].schema` value `rs`: a truthy `$ref` wins (its final
segment, or `'object'` without one); then `type === 'array'` with truthy
`items` builds `itemType[]` from the items' `$ref` final segment or
primitive type; then a truthy declared `type` is kept as-is; otherwise
`'json'`. -/
def resolveReturnType (rs : Js) : Except Unit Js := do
  let ref := rs.getF "$ref"
  if ref.truthy then do
    let m ← jsMatchLastSegE ref
    return (match m with | some t => .str t | none => .str "object")
  else if jsEqStr (rs.getF "type") "array" && (rs.getF "items").truthy then do
    let items := rs.getF "items"
    let iref := items.getF "$ref"
    let itemType ←
      if iref.truthy then do
        let m ← jsMatchLastSegE iref
        pure (Js.str (m.getD "object"))
      else
        pure (jsOr (items.getF "type") (.str "any"))
    return .str (jsToString itemType ++ "[]")
  else if (rs.getF "type").truthy then
    return rs.getF "type"
  else
    return .str "json"

/-- `postMethod.responses?.['200']?.schema`. -/
def respSchemaOf (postMethod : Js) : Js :=
  ((postMethod.getF "responses").getOpt "200").getOpt "schema"

/-- The full return-type assignment for one function: the initial value is
`'void'` and it is only overwritten when the 200-response schema is truthy. -/
def returnTypeOfPost (postMethod : Js) : Except Unit Js :=
  let rs := respSchemaOf postMethod
  if rs.truthy then resolveReturnType rs else .ok (.str "void")

/-- Lines 582-638: process one `[path, methods]` entry of the RPC loop.
Only `/rpc/` paths are considered; `methods.post` throws on a null methods
value; a falsy `postMethod` skips the entry. -/
def procRpcPath (acc : List RpcFunction) (path : String) (methods : Js) :
    Except Unit (List RpcFunction) := do
  if !(startsWithS path "/rpc/") then return acc
  let functionName := path.drop 5
  let pm ← methods.getE "post"
  let postMethod := jsOr pm (methods.getF "get")
  if !postMethod.truthy then return acc
  let desc := jsOr (postMethod.getF "description") (jsOr (postMethod.getF "summary") (.str ""))
  let params := postMethod.getF "parameters"
  let fparams ←
    if params.truthy then do
      let items ← jsIter params
      items.foldlM addBodyParams []
    else pure []
  let rT ← returnTypeOfPost postMethod
  return acc ++ [{ name := functionName, description := desc, parameters := fparams,
                   returnType := rT }]

/-- `Analyzer.parseOpenAPISpec`: a falsy spec or falsy `spec.paths` yields
the empty result; otherwise two passes over `Object.entries(spec.paths)`
collect tables and RPC functions.  `Except.error ()` models an uncaught
JS `TypeError` (the source has no try/catch). -/
def parseOpenAPISpec (spec : Js) : Except Unit ParseResult :=
  let emptyRes : ParseResult := { tables := [], functions := [], rawSpec := spec }
  if !spec.truthy then .ok emptyRes
  else
    let paths := spec.getF "paths"
    if !paths.truthy then .ok emptyRes
    else do
      let entries ← jsEntries paths
      let tables ← entries.foldlM (fun acc pe => procTablePath spec acc pe.1 pe.2) []
      let functions ← entries.foldlM (fun acc pe => procRpcPath acc pe.1 pe.2) []
      return { tables := tables, functions := functions, rawSpec := spec }

theorem riskFold_eq (issues : List Issue) (b : Breakdown) (t : Nat) :
    issues.foldl riskStep (b, t) =
      (⟨b.critical + countSev issues .critical, b.high + countSev issues .high,
        b.medium + countSev issues .medium, b.low + countSev issues .low⟩,
       t + 25 * countSev issues .critical + 15 * countSev issues .high +
         8 * countSev issues .medium + 3 * countSev issues .low) := by
  induction issues generalizing b t with
  | nil => simp [countSev]
  | cons i rest ih =>
      simp only [List.foldl_cons, ih, countSev, List.countP_cons]
      cases hs : i.severity <;>
        simp [riskStep, bumpB, sevWeight, hs, countSev] <;>
        constructor <;> first | rfl | omega

theorem calculateRiskScore_score (issues : List Issue) :
    (calculateRiskScore issues).score =
      min 100 (25 * countSev issues .critical + 15 * countSev issues .high +
        8 * countSev issues .medium + 3 * countSev issues .low) := by
  simp [calculateRiskScore, riskFold_eq]

theorem calculateRiskScore_breakdown (issues : List Issue) :
    (calculateRiskScore issues).breakdown =
      ⟨countSev issues .critical, countSev issues .high,
       countSev issues .medium, countSev issues .low⟩ := by
  simp [calculateRiskScore, riskFold_eq]

/-! ## Claim C1 -/

/-- C1 (counterexample): an OPTIONS response is received whose `Allow`
header advertises no write verbs (`"GET, HEAD"`): `testTableAccess` then
sets insert/update/delete to denied (`false`), not to `'unknown'` — so the
claim "unsupported or no advertised write verbs ⟹ all three unknown" is
false on the second disjunct. -/
theorem c1_counterexample :
    (testTableAccess (some ⟨true, 200, none⟩) (some ⟨some "GET, HEAD", none⟩)).insert = Tri.isFalse
    ∧ (testTableAccess (some ⟨true, 200, none⟩) (some ⟨some "GET, HEAD", none⟩)).update = Tri.isFalse
    ∧ (testTableAccess (some ⟨true, 200, none⟩) (some ⟨some "GET, HEAD", none⟩)).delete = Tri.isFalse :=
  ⟨rfl, rfl, rfl⟩

/-- C1 (amended): only when the OPTIONS request itself fails do the three
write-permission fields stay `'unknown'`; whenever an OPTIONS response is
received they are set to allowed/denied according to whether POST/PATCH/
DELETE occur in the advertised method list — in particular a response with
no `Allow`/`Access-Control-Allow-Methods` header at all yields denied. -/
theorem c1_amended_theorem :
    (∀ sel, (testTableAccess sel none).insert = Tri.unknown
      ∧ (testTableAccess sel none).update = Tri.unknown
      ∧ (testTableAccess sel none).delete = Tri.unknown)
    ∧ (∀ sel o,
        (testTableAccess sel (some o)).insert =
          (if substrB "POST" (strToUpper (headerOr o.allow o.acam)) then Tri.isTrue else Tri.isFalse)
        ∧ (testTableAccess sel (some o)).update =
          (if substrB "PATCH" (strToUpper (headerOr o.allow o.acam)) then Tri.isTrue else Tri.isFalse)
        ∧ (testTableAccess sel (some o)).delete =
          (if substrB "DELETE" (strToUpper (headerOr o.allow o.acam)) then Tri.isTrue else Tri.isFalse))
    ∧ (∀ sel, (testTableAccess sel (some ⟨none, none⟩)).insert = Tri.isFalse
      ∧ (testTableAccess sel (some ⟨none, none⟩)).update = Tri.isFalse
      ∧ (testTableAccess sel (some ⟨none, none⟩)).delete = Tri.isFalse) := by
  refine ⟨fun sel => ?_, fun sel o => ?_, fun sel => ?_⟩ <;>
    cases sel <;> simp [testTableAccess] <;> exact ⟨rfl, rfl, rfl⟩

/-! ## Claim C4 -/

/-- C4 (counterexample): a select response that is denied (`ok = false`,
status 403) but carries a `Content-Range: 0-0/5` header leaves
`select = false` yet sets `rowCount = 5` — refuting "rowCount is non-null
only if select is true". -/
theorem c4_counterexample :
    (testTableAccess (some ⟨false, 403, some "0-0/5"⟩) none).select = false
    ∧ (testTableAccess (some ⟨false, 403, some "0-0/5"⟩) none).rowCount = some 5 :=
  ⟨rfl, rfl⟩

/-- C4 (amended): the dedicated row-count probe of `App.runAudit` is indeed
skipped entirely when select is denied (the access result is returned
unchanged); but inside `testTableAccess` the rowCount captured from the
select response depends only on its `Content-Range` header, not on the
select outcome, so rowCount can be set while select is false. -/
theorem c4_amended_theorem :
    (∀ (a : AccessResult) (c : Option Nat), a.select = false → updateRowCount a c = a)
    ∧ (∀ (r₁ r₂ : SelectResp) (o₁ o₂ : Option OptionsResp),
        r₁.contentRange = r₂.contentRange →
        (testTableAccess (some r₁) o₁).rowCount = (testTableAccess (some r₂) o₂).rowCount) := by
  constructor
  · intro a c h
    simp [updateRowCount, h]
  · intro r₁ r₂ o₁ o₂ h
    cases o₁ <;> cases o₂ <;> simp [testTableAccess, h]

/-- C4 (witness). -/
theorem c4_witness :
    updateRowCount ⟨false, Tri.unknown, Tri.unknown, Tri.unknown, none, none⟩ (some 7) =
      ⟨false, Tri.unknown, Tri.unknown, Tri.unknown, none, none⟩
    ∧ (testTableAccess (some ⟨false, 403, some "0-0/5"⟩) none).rowCount =
      (testTableAccess (some ⟨true, 200, some "0-0/5"⟩) (some ⟨some "POST", none⟩)).rowCount :=
  ⟨c4_amended_theorem.1 _ _ rfl, c4_amended_theorem.2 _ _ _ _ rfl⟩

/-! ## Claim C10 -/

/-- C10: whenever the unauthenticated public-object probe yields an HTTP
status `s`, `testBucketAccess` reports `isPublic` exactly when `s` is
neither 400 nor 404; in particular 401, 403 and 500 responses mark the
bucket publicly readable. -/
theorem c10_theorem :
    (∀ (lo : Option (Bool × Js)) (s : Nat),
        (testBucketAccess lo (some s)).isPublic = (!(s == 400) && !(s == 404)))
    ∧ (∀ lo, (testBucketAccess lo (some 401)).isPublic = true
        ∧ (testBucketAccess lo (some 403)).isPublic = true
        ∧ (testBucketAccess lo (some 500)).isPublic = true) := by
  have key : ∀ (lo : Option (Bool × Js)) (s : Nat),
      (testBucketAccess lo (some s)).isPublic = (!(s == 400) && !(s == 404)) := by
    intro lo s
    rcases lo with _ | ⟨ok, body⟩
    · rfl
    · cases ok <;> rfl
  exact ⟨key, fun lo => ⟨key lo 401, key lo 403, key lo 500⟩⟩

/-! ## Claim C2 -/

/-- C2: any breakdown with a positive critical count forces
`riskLevel = "critical"` regardless of the numeric score, and in general
the level follows the precedence: critical issue or score ≥ 75 ⟹
critical; else high issue or score ≥ 50 ⟹ high; else medium issue or
score ≥ 25 ⟹ medium; else low. -/
theorem c2_theorem (issues : List Issue) :
    (0 < countSev issues Sev.critical → (calculateRiskScore issues).riskLevel = "critical")
    ∧ (calculateRiskScore issues).riskLevel =
      (if 0 < countSev issues Sev.critical ∨ 75 ≤ (calculateRiskScore issues).score then "critical"
       else if 0 < countSev issues Sev.high ∨ 50 ≤ (calculateRiskScore issues).score then "high"
       else if 0 < countSev issues Sev.medium ∨ 25 ≤ (calculateRiskScore issues).score then "medium"
       else "low") := by
  have h2 : (calculateRiskScore issues).riskLevel =
      (if 0 < countSev issues Sev.critical ∨ 75 ≤ (calculateRiskScore issues).score then "critical"
       else if 0 < countSev issues Sev.high ∨ 50 ≤ (calculateRiskScore issues).score then "high"
       else if 0 < countSev issues Sev.medium ∨ 25 ≤ (calculateRiskScore issues).score then "medium"
       else "low") := by
    simp only [calculateRiskScore, riskFold_eq, Nat.zero_add]
  refine ⟨fun h => ?_, h2⟩
  rw [h2]
  simp [h]

/-- C2 (witness). -/
theorem c2_witness :
    0 < countSev [{ severity := Sev.critical, type := "unrestricted_delete" }] Sev.critical
    ∧ (calculateRiskScore [{ severity := Sev.critical, type := "unrestricted_delete" }]).riskLevel
        = "critical" :=
  ⟨by decide, (c2_theorem _).1 (by decide)⟩

/-! ## Claim C3 -/

/-- C3: the score equals the severity-weighted sum (25/15/8/3) capped at
100, never exceeds 100, and is monotonically non-decreasing in each
severity count. -/
theorem c3_theorem (issues : List Issue) :
    (calculateRiskScore issues).score =
      min 100 (25 * countSev issues Sev.critical + 15 * countSev issues Sev.high +
        8 * countSev issues Sev.medium + 3 * countSev issues Sev.low)
    ∧ (calculateRiskScore issues).score ≤ 100
    ∧ (∀ more : List Issue,
        (∀ s, countSev issues s ≤ countSev more s) →
        (calculateRiskScore issues).score ≤ (calculateRiskScore more).score) := by
  refine ⟨calculateRiskScore_score issues, ?_, ?_⟩
  · rw [calculateRiskScore_score]
    omega
  · intro more h
    rw [calculateRiskScore_score, calculateRiskScore_score]
    have h1 := h Sev.critical
    have h2 := h Sev.high
    have h3 := h Sev.medium
    have h4 := h Sev.low
    omega

/-- C3 (witness). -/
theorem c3_witness :
    (calculateRiskScore [{ severity := Sev.medium, type := "sensitive_columns" }]).score ≤
      (calculateRiskScore [{ severity := Sev.medium, type := "sensitive_columns" },
        { severity := Sev.high, type := "unrestricted_insert" }]).score :=
  (c3_theorem _).2.2 _ (by intro s; cases s <;> decide)

/-! ## Claim C5 -/

/-- C5 (counterexample): a discovery state in which the endpoint was found
and the credential was not (Supabase detected, bare domain match only) is
raised as an error by `detectFromUrl`, not returned as a partial result. -/
theorem c5_counterexample :
    (⟨true, some "https://abc.supabase.co", none,
        ["Found Supabase URL: https://abc.supabase.co"]⟩ : DetectState).detected = true
    ∧ truthyOpt (⟨true, some "https://abc.supabase.co", none,
        ["Found Supabase URL: https://abc.supabase.co"]⟩ : DetectState).projectUrl = true
    ∧ (⟨true, some "https://abc.supabase.co", none,
        ["Found Supabase URL: https://abc.supabase.co"]⟩ : DetectState).anonKey = none
    ∧ exceptOk (detectFromUrlOutcome ⟨true, some "https://abc.supabase.co", none,
        ["Found Supabase URL: https://abc.supabase.co"]⟩) = false :=
  ⟨rfl, rfl, rfl, rfl⟩

/-- C5 (amended): when Supabase was detected, `detectFromUrl` succeeds
exactly when both fields were recovered; a partial outcome (one field
missing or empty) is raised as an error — whose message reports the
partially found half — rather than returned. -/
theorem c5_amended_theorem :
    (∀ st : DetectState, st.detected = true →
        exceptOk (detectFromUrlOutcome st) = (truthyOpt st.projectUrl && truthyOpt st.anonKey))
    ∧ (∀ (st : DetectState) (u k : String), st.detected = true →
        st.projectUrl = some u → u ≠ "" → st.anonKey = some k → k ≠ "" →
        detectFromUrlOutcome st = .ok ⟨u, k, st.detectionDetails⟩) := by
  constructor
  · intro st h
    cases htu : truthyOpt st.projectUrl <;> cases htk : truthyOpt st.anonKey <;>
      simp [detectFromUrlOutcome, exceptOk, h, htu, htk]
  · intro st u k h hu hune hk hkne
    have htu : truthyOpt st.projectUrl = true := by
      rw [hu]; simpa [truthyOpt] using hune
    have htk : truthyOpt st.anonKey = true := by
      rw [hk]; simpa [truthyOpt] using hkne
    simp [detectFromUrlOutcome, h, htu, htk, hu, hk]
    exact ⟨by simpa [truthyOpt] using hune, by simpa [truthyOpt] using hkne⟩

/-- C5 (witness). -/
theorem c5_witness :
    exceptOk (detectFromUrlOutcome ⟨true, some "https://abc.supabase.co", none, []⟩) =
      (truthyOpt (some "https://abc.supabase.co") && truthyOpt (none : Option String))
    ∧ detectFromUrlOutcome ⟨true, some "https://abc.supabase.co", some "eyJkey", ["d"]⟩ =
        .ok ⟨"https://abc.supabase.co", "eyJkey", ["d"]⟩ :=
  ⟨c5_amended_theorem.1 _ rfl,
   c5_amended_theorem.2 _ _ _ rfl rfl (by decide) rfl (by decide)⟩

/-! ## Claim C8 -/

/-- C8 (counterexample): the RPC function `delete_user`, probed with
status 401, has `requiresAuth = true` yet still receives the
`sensitive_function` issue — `analyzeFunctionSecurity` gates only on
`accessible`, so "a function whose probe showed that authentication is
required does not receive this issue" is false. -/
theorem c8_counterexample :
    (testRPCFunction (Except.ok 401)).requiresAuth = Tri.isTrue
    ∧ analyzeFunctionSecurity ⟨"delete_user", Js.null, [], Js.str "void"⟩
        (some (testRPCFunction (Except.ok 401))) = [sensitiveFunctionIssue "delete_user"] :=
  ⟨rfl, rfl⟩

/-- C8 (amended): `analyzeFunctionSecurity` emits the medium
`sensitive_function` issue exactly when a test result is present with
`accessible = true` and the name matches a mutating/administrative verb
pattern; the `requiresAuth` facet plays no role at all. -/
theorem c8_amended_theorem :
    (∀ (func : RpcFunction) (tr : FuncTestResult),
        analyzeFunctionSecurity func (some tr) =
          (if tr.accessible && sensitiveOps.any (fun p => substrB p (strToLower func.name))
            then [sensitiveFunctionIssue func.name] else []))
    ∧ (∀ func, analyzeFunctionSecurity func none = [])
    ∧ (∀ n, (sensitiveFunctionIssue n).severity = Sev.medium) := by
  refine ⟨fun func tr => ?_, fun func => rfl, fun n => rfl⟩
  have hfa : ∀ (l : List String) (p : String → Bool),
      (match l.find? p with
        | some _ => [sensitiveFunctionIssue func.name]
        | none => ([] : List Issue)) =
      (if l.any p then [sensitiveFunctionIssue func.name] else []) := by
    intro l p
    induction l with
    | nil => rfl
    | cons a t ih =>
        by_cases h : p a <;> simp [List.find?, List.any, h, ih]
  cases htr : tr.accessible <;> simp [analyzeFunctionSecurity, htr, hfa]

/-! ## Claim C7 -/

/-- C7 (counterexample): `parseOpenAPISpec` is not exception-free — a spec
whose `paths` map carries a `null` method map reaches
`Object.entries(methods)` and raises a `TypeError`. -/
theorem c7_counterexample :
    parseOpenAPISpec (Js.obj [("paths", Js.obj [("/t", Js.null)])]) = .error () := by
  rfl

/-- C7 (amended): whenever the input is falsy or lacks a truthy `paths`
field, `parseOpenAPISpec` returns the empty catalog without throwing;
however it is not throw-free on all malformed inputs (see the
counterexample: a null path entry raises a `TypeError`). -/
theorem c7_amended_theorem (spec : Js) :
    spec.truthy = false ∨ (spec.getF "paths").truthy = false →
    parseOpenAPISpec spec = .ok ⟨[], [], spec⟩ := by
  intro h
  by_cases ht : spec.truthy <;> rcases h with h | h <;>
    simp_all [parseOpenAPISpec]

/-- C7 (witness). -/
theorem c7_witness :
    parseOpenAPISpec (Js.obj [("openapi", Js.str "2.0")]) =
      .ok ⟨[], [], Js.obj [("openapi", Js.str "2.0")]⟩ :=
  c7_amended_theorem _ (Or.inr rfl)

/-! ## Claim C9 -/

/-- C9 (counterexample): a parsed RPC function with no response schema at
all keeps the *initial* return type `'void'`, not the claimed default
`'json'` — `'json'` is only reached when a truthy response schema exists
but carries neither `$ref` nor a type. -/
theorem c9_counterexample :
    (parseOpenAPISpec
        (Js.obj [("paths", Js.obj [("/rpc/f", Js.obj [("post", Js.obj [])])])])).map
      (fun r => r.functions.map (fun f => f.returnType)) = .ok [Js.str "void"] := by
  rfl

/-- C9 (amended): when a truthy 200-response schema is present the
resolution order of the claim holds — `$ref` final segment, else
array-of-referenced/primitive item type, else the declared type, else
`'json'` — but a function with no (or falsy) response schema keeps the
initial default `'void'`. -/
theorem c9_amended_theorem :
    (∀ (rs : Js) (r t : String), rs.getF "$ref" = Js.str r → r ≠ "" →
        lastSegAfterSlash r = some t →
        resolveReturnType rs = .ok (Js.str t))
    ∧ (∀ (rs : Js) (r t : String), (rs.getF "$ref").truthy = false →
        jsEqStr (rs.getF "type") "array" = true → (rs.getF "items").truthy = true →
        (rs.getF "items").getF "$ref" = Js.str r → r ≠ "" → lastSegAfterSlash r = some t →
        resolveReturnType rs = .ok (Js.str (t ++ "[]")))
    ∧ (∀ (rs : Js) (t : String), (rs.getF "$ref").truthy = false →
        jsEqStr (rs.getF "type") "array" = true → (rs.getF "items").truthy = true →
        ((rs.getF "items").getF "$ref").truthy = false →
        (rs.getF "items").getF "type" = Js.str t → t ≠ "" →
        resolveReturnType rs = .ok (Js.str (t ++ "[]")))
    ∧ (∀ (rs : Js) (t : String), (rs.getF "$ref").truthy = false →
        (jsEqStr (rs.getF "type") "array" = false ∨ (rs.getF "items").truthy = false) →
        rs.getF "type" = Js.str t → t ≠ "" →
        resolveReturnType rs = .ok (Js.str t))
    ∧ (∀ rs : Js, (rs.getF "$ref").truthy = false → (rs.getF "type").truthy = false →
        resolveReturnType rs = .ok (Js.str "json"))
    ∧ (∀ pm : Js, (respSchemaOf pm).truthy = false →
        returnTypeOfPost pm = .ok (Js.str "void")) := by
  refine ⟨?_, ?_, ?_, ?_, ?_, ?_⟩
  · intro rs r t h1 h2 h3
    have ht : (Js.str r).truthy = true := by simpa [Js.truthy] using h2
    simp [resolveReturnType, h1, ht, jsMatchLastSegE, h3]
  · intro rs r t h1 h2 h3 h4 h5 h6
    have h4t : (Js.str r).truthy = true := by simpa [Js.truthy] using h5
    simp [resolveReturnType, h1, h2, h3, h4, h4t, jsMatchLastSegE, h6, jsToString]
  · intro rs t h1 h2 h3 h4 h5 h6
    have h5t : (Js.str t).truthy = true := by simpa [Js.truthy] using h6
    simp [resolveReturnType, h1, h2, h3, h4, h5, jsOr, h5t, jsToString]
    rfl
  · intro rs t h1 h2 h3 h4
    have h3t : (Js.str t).truthy = true := by simpa [Js.truthy] using h4
    rcases h2 with h2 | h2
    · rw [h3] at h2
      simp [resolveReturnType, h1, h2, h3, h3t]
      rfl
    · simp [resolveReturnType, h1, h2, h3, h3t]
      rfl
  · intro rs h1 h3
    have h2 : jsEqStr (rs.getF "type") "array" = false := by
      cases hv : rs.getF "type" <;> simp_all [jsEqStr, Js.truthy]
    simp [resolveReturnType, h1, h2, h3]
    rfl
  · intro pm h
    simp [returnTypeOfPost, h]

/-- C9 (witness). -/
theorem c9_witness :
    resolveReturnType (Js.obj [("$ref", Js.str "#/definitions/person")]) = .ok (Js.str "person")
    ∧ resolveReturnType (Js.obj [("type", Js.str "array"),
        ("items", Js.obj [("$ref", Js.str "#/definitions/person")])]) =
        .ok (Js.str "person[]")
    ∧ resolveReturnType (Js.obj [("type", Js.str "array"),
        ("items", Js.obj [("type", Js.str "integer")])]) = .ok (Js.str "integer[]")
    ∧ resolveReturnType (Js.obj [("type", Js.str "text")]) = .ok (Js.str "text")
    ∧ resolveReturnType (Js.obj []) = .ok (Js.str "json")
    ∧ returnTypeOfPost (Js.obj []) = .ok (Js.str "void") :=
  ⟨c9_amended_theorem.1 (Js.obj [("$ref", Js.str "#/definitions/person")])
      "#/definitions/person" "person" rfl (by decide) rfl,
   c9_amended_theorem.2.1
      (Js.obj [("type", Js.str "array"),
        ("items", Js.obj [("$ref", Js.str "#/definitions/person")])])
      "#/definitions/person" "person" rfl rfl rfl rfl (by decide) rfl,
   c9_amended_theorem.2.2.1
      (Js.obj [("type", Js.str "array"), ("items", Js.obj [("type", Js.str "integer")])])
      "integer" rfl rfl rfl rfl rfl (by decide),
   c9_amended_theorem.2.2.2.1 (Js.obj [("type", Js.str "text")]) "text"
      rfl (Or.inl rfl) rfl (by decide),
   c9_amended_theorem.2.2.2.2.1 (Js.obj []) rfl rfl,
   c9_amended_theorem.2.2.2.2.2 (Js.obj []) rfl⟩

/-! ## Claim C6 -/

/-- C6: a table whose access result has insert allowed, update and delete
denied, no sensitive-column match and no large row count yields exactly the
one `unrestricted_insert` issue (severity high); and in general the
insert/update/delete issues appear in the analysis result exactly when the
corresponding permission is allowed, with severities high/high/critical. -/
theorem c6_theorem :
    (∀ (table : TableSchema) (a : AccessResult),
      a.insert = Tri.isTrue → a.update = Tri.isFalse → a.delete = Tri.isFalse →
      detectSensitiveColumns table.columns = [] →
      a.rowCount.getD 0 ≤ 10000 →
      analyzeTableSecurity table (some a) = .ok [insertIssue table.name])
    ∧ (∀ t, (insertIssue t).severity = Sev.high ∧ (updateIssue t).severity = Sev.high
        ∧ (deleteIssue t).severity = Sev.critical)
    ∧ (∀ (table : TableSchema) (a : AccessResult) (l : List Issue),
        analyzeTableSecurity table (some a) = .ok l →
        ((insertIssue table.name ∈ l ↔ a.insert = Tri.isTrue)
         ∧ (updateIssue table.name ∈ l ↔ a.update = Tri.isTrue)
         ∧ (deleteIssue table.name ∈ l ↔ a.delete = Tri.isTrue))) := by
  refine ⟨?_, fun t => ⟨rfl, rfl, rfl⟩, ?_⟩
  · intro table a h1 h2 h3 h4 h5
    have hrc : (match a.rowCount with | some c => decide (c > 10000) | none => false) = false := by
      cases hr : a.rowCount with
      | none => rfl
      | some c =>
          rw [hr] at h5
          simp at h5 ⊢
          omega
    simp [analyzeTableSecurity, h1, h2, h3, h4, hrc]
  · intro table a l hl
    simp only [analyzeTableSecurity, Except.ok.injEq] at hl
    subst hl
    refine ⟨?_, ?_, ?_⟩ <;>
      · split_ifs <;>
          simp_all [insertIssue, updateIssue, deleteIssue, sensitiveColumnsIssue,
            largeExposureIssue]

/-- C6 (witness). -/
theorem c6_witness :
    analyzeTableSecurity
        ⟨"notes", [⟨"id", Js.str "integer", Js.null, Js.str "", false⟩], [⟨"GET", Js.str ""⟩], ""⟩
        (some ⟨true, Tri.isTrue, Tri.isFalse, Tri.isFalse, some 50, none⟩) =
      .ok [insertIssue "notes"] :=
  c6_theorem.1 _ _ rfl rfl rfl rfl (by decide)
